import Mathlib

/-!
A shallow embedding of the yCPU 8-bit processor simulator
(`src/y_cpu/src/lib.rs`) together with a verification of its specification.

Conventions of the embedding:

* Bytes and machine integers are `Nat` / `Int`.  Operations that wrap in Rust
  release builds (`u8` / `i8` / `i16` addition, subtraction, multiplication,
  `u8` shifts) are written with an explicit reduction (`% 256`, or wrapping
  into the signed range); debug builds would already abort on overflow, and
  the specification describes the wrapping behaviour.
* A Rust `panic!` (invalid Router address, array index out of bounds, zero or
  overflowing division, `Vec` index-assignment past the length) is modelled
  as `none`; every fallible operation returns an `Option`.
* `&mut self` methods are modelled by explicit state passing; in particular
  `CPU.load` returns the loaded byte together with the resulting state,
  mirroring the mutable borrow in the source.
-/

namespace YCPU

/-- Reinterpret a byte as a two's-complement `i8` (`i8::from_be_bytes`). -/
def toI8 (b : Nat) : Int := if b < 128 then (b : Int) else (b : Int) - 256

/-- Wrap an integer into the `i8` range: release-build `i8` arithmetic. -/
def i8wrap (x : Int) : Int := (x + 128) % 256 - 128

/-- Wrap an integer into the `i16` range: release-build `i16` arithmetic. -/
def i16wrap (x : Int) : Int := (x + 32768) % 65536 - 32768

/-- Rust `as u8`: keep the low 8 bits of an integer. -/
def u8ofInt (x : Int) : Nat := (x % 256).toNat

/-- Rust `i8` division: aborts on a zero divisor and on the overflowing
`-128 / -1` (a panic in every build profile); otherwise the quotient truncated
toward zero. -/
def i8div (a b : Int) : Option Int :=
  if b = 0 then none
  else if a = -128 ∧ b = -1 then none
  else some (Int.tdiv a b)

/-- Rust `i16` division: aborts on a zero divisor and on `-32768 / -1`. -/
def i16div (a b : Int) : Option Int :=
  if b = 0 then none
  else if a = -32768 ∧ b = -1 then none
  else some (Int.tdiv a b)

/-- Rust `u8` division: aborts on a zero divisor. -/
def u8div (a b : Nat) : Option Nat :=
  if b = 0 then none else some (a / b)

/-- `Banker<T>`: 256 equally shaped banks plus the active-bank selector.
`n` is the byte width of one bank (127 for instruction memory, 64 for data
memory); `content p i` is byte `i` of bank `p`. -/
structure Banker (n : Nat) where
  content : Nat → Nat → Nat
  pointer : Nat

/-- `Banker::new`: broadcast one image into all 256 banks, pointer 0. -/
def Banker.new (n : Nat) (img : Nat → Nat) : Banker n :=
  { content := fun _ i => img i, pointer := 0 }

/-- Indexing a banker reads `content[pointer as usize][index]`; an offset at
or past the bank width is an out-of-bounds panic. -/
def Banker.read {n : Nat} (b : Banker n) (i : Nat) : Option Nat :=
  if i < n then some (b.content b.pointer i) else none

/-- Mutable indexing of a banker: write byte `i` of the active bank. -/
def Banker.write {n : Nat} (b : Banker n) (i v : Nat) : Option (Banker n) :=
  if i < n then
    some { content := fun p j => if p = b.pointer ∧ j = i then v else b.content p j,
           pointer := b.pointer }
  else none

/-- The processor state.  `CPU::load` / `CPU::push` never consult `devices`,
and the only thing ever read from a boxed `dyn Device` is its declared
`address()` (during construction), so a registered device is modelled by that
address; `devices` is the `mapped_devices` vector of `CPU::new`. -/
structure CPU where
  reg_zero : Nat
  inst_mem : Banker 127
  data_mem : Banker 64
  devices : List Nat

/-- The modulus of Rust `usize` arithmetic (64-bit). -/
def USIZE : Nat := 18446744073709551616

/-- Rust `Vec` index-assignment `v[i] = x`: succeeds only when `i < v.len()`,
otherwise the program aborts. -/
def vecSet (l : List Nat) (i x : Nat) : Option (List Nat) :=
  if i < l.length then some (l.set i x) else none

/-- The device-mapping loop of `CPU::new`: it starts from
`Vec::with_capacity(62)`, whose length is 0, and index-assigns each device at
`device.address() as usize - 194` (`usize` subtraction, wrapping in release
builds). -/
def mapDevices (devs : List Nat) : Option (List Nat) :=
  devs.foldlM (fun acc a => vecSet acc ((a + USIZE - 194) % USIZE) a) []

/-- `CPU::new`: seed all 256 instruction banks from the image, zero the data
banks, map the devices. -/
def CPU.new (img : Nat → Nat) (devs : List Nat) : Option CPU :=
  (mapDevices devs).map fun mapped =>
    { reg_zero := 0
      inst_mem := Banker.new 127 img
      data_mem := Banker.new 64 (fun _ => 0)
      devices := mapped }

/-- The decoded instruction: four flag bits
(`halt_on_error`, `store_debug_info`, `arg1_signed`, `arg2_signed`) and the
raw operand addresses. -/
inductive Instruction where
  | NoOp (h d s1 s2 : Bool)
  | And (h d s1 s2 : Bool) (arg1 arg2 : Nat)
  | Or (h d s1 s2 : Bool) (arg1 arg2 : Nat)
  | Not (h d s1 s2 : Bool) (arg1 : Nat)
  | Add (h d s1 s2 : Bool) (arg1 arg2 : Nat)
  | Sub (h d s1 s2 : Bool) (arg1 arg2 : Nat)
  | Mul (h d s1 s2 : Bool) (arg1 arg2 : Nat)
  | Div (h d s1 s2 : Bool) (arg1 arg2 : Nat)
  | SL (h d s1 s2 : Bool) (arg1 : Nat)
  | SR (h d s1 s2 : Bool) (arg1 : Nat)
  | RL (h d s1 s2 : Bool) (arg1 : Nat)
  | RR (h d s1 s2 : Bool) (arg1 : Nat)
  | Copy (h d s1 s2 : Bool) (arg1 arg2 : Nat)
  | CompEq (h d s1 s2 : Bool) (arg1 arg2 : Nat)
  | CompGt (h d s1 s2 : Bool) (arg1 arg2 : Nat)
  | CompLt (h d s1 s2 : Bool) (arg1 arg2 : Nat)

/-- `Instruction::from_3bytes`, the decoder: low 4 bits of byte 0 select the
opcode, the high 4 bits are the flags, bytes 1 and 2 are the raw operand
addresses.  The wildcard arm of the source is an unreachable `panic!`
(`opcode = b0 &&& 15 < 16`), modelled as `none`. -/
def Instruction.from_3bytes (b0 b1 b2 : Nat) : Option Instruction :=
  let opcode := b0 &&& 15
  let halt_on_error := b0 &&& 128 == 128
  let store_debug_info := b0 &&& 64 == 64
  let arg1_signed := b0 &&& 32 == 32
  let arg2_signed := b0 &&& 16 == 16
  let arg1 := b1
  let arg2 := b2
  match opcode with
  | 0 => some (.NoOp halt_on_error store_debug_info arg1_signed arg2_signed)
  | 1 => some (.And halt_on_error store_debug_info arg1_signed arg2_signed arg1 arg2)
  | 2 => some (.Or halt_on_error store_debug_info arg1_signed arg2_signed arg1 arg2)
  | 3 => some (.Not halt_on_error store_debug_info arg1_signed arg2_signed arg1)
  | 4 => some (.Add halt_on_error store_debug_info arg1_signed arg2_signed arg1 arg2)
  | 5 => some (.Sub halt_on_error store_debug_info arg1_signed arg2_signed arg1 arg2)
  | 6 => some (.Mul halt_on_error store_debug_info arg1_signed arg2_signed arg1 arg2)
  | 7 => some (.Div halt_on_error store_debug_info arg1_signed arg2_signed arg1 arg2)
  | 8 => some (.SL halt_on_error store_debug_info arg1_signed arg2_signed arg1)
  | 9 => some (.SR halt_on_error store_debug_info arg1_signed arg2_signed arg1)
  | 10 => some (.RL halt_on_error store_debug_info arg1_signed arg2_signed arg1)
  | 11 => some (.RR halt_on_error store_debug_info arg1_signed arg2_signed arg1)
  | 12 => some (.Copy halt_on_error store_debug_info arg1_signed arg2_signed arg1 arg2)
  | 13 => some (.CompEq halt_on_error store_debug_info arg1_signed arg2_signed arg1 arg2)
  | 14 => some (.CompGt halt_on_error store_debug_info arg1_signed arg2_signed arg1 arg2)
  | 15 => some (.CompLt halt_on_error store_debug_info arg1_signed arg2_signed arg1 arg2)
  | _ => none

/-- The outcome type of a tick. -/
inductive Halted where
  | Running
  | Errored
  | Halted

/-- The Address-Space Router's `load` (a `&mut self` method in the source, so
it returns the resulting state as well): register zero at 0, active
instruction bank at 1..=127, active data bank at 128..=191, the two bank
pointers at 192 and 193; everything else is
`panic!("Invalid address: ...")` — the device table is never consulted. -/
def CPU.load (cpu : CPU) (addr : Nat) : Option (Nat × CPU) :=
  if addr = 0 then some (cpu.reg_zero, cpu)
  else if addr ≤ 127 then (cpu.inst_mem.read addr).map (fun v => (v, cpu))
  else if addr ≤ 191 then (cpu.data_mem.read (addr - 128)).map (fun v => (v, cpu))
  else if addr = 192 then some (cpu.inst_mem.pointer, cpu)
  else if addr = 193 then some (cpu.data_mem.pointer, cpu)
  else none

/-- The Address-Space Router's `push`: same partition as `CPU.load`; addresses
at or above 194 are `panic!("Invalid address: ...")`, devices included. -/
def CPU.push (cpu : CPU) (addr data : Nat) : Option CPU :=
  if addr = 0 then some { cpu with reg_zero := data }
  else if addr ≤ 127 then
    (cpu.inst_mem.write addr data).map fun m => { cpu with inst_mem := m }
  else if addr ≤ 191 then
    (cpu.data_mem.write (addr - 128) data).map fun m => { cpu with data_mem := m }
  else if addr = 192 then some { cpu with inst_mem := { cpu.inst_mem with pointer := data } }
  else if addr = 193 then some { cpu with data_mem := { cpu.data_mem with pointer := data } }
  else none

/-- The three bytes read by `CPU::fetch`: direct indexing of `inst_mem` at
`reg_zero`, `reg_zero + 1`, `reg_zero + 2` (`u8` addition, hence the
`% 256`), not Router `load` calls. -/
def CPU.fetchBytes (cpu : CPU) : Option (Nat × Nat × Nat) := do
  let b0 ← cpu.inst_mem.read cpu.reg_zero
  let b1 ← cpu.inst_mem.read ((cpu.reg_zero + 1) % 256)
  let b2 ← cpu.inst_mem.read ((cpu.reg_zero + 2) % 256)
  some (b0, b1, b2)

/-- `CPU::fetch`: decode the three directly fetched bytes. -/
def CPU.fetch (cpu : CPU) : Option Instruction := do
  let (b0, b1, b2) ← cpu.fetchBytes
  Instruction.from_3bytes b0 b1 b2

/-- Fetch as §4.5 of the spec describes it: three bytes read through the
Router's `load` at addresses `reg_zero`, `reg_zero + 1`, `reg_zero + 2`.
Modelled from the spec's words, only to be compared against the source's
`CPU.fetchBytes`. -/
def CPU.fetchBytesRouter (cpu : CPU) : Option (Nat × Nat × Nat) := do
  let (b0, c1) ← cpu.load cpu.reg_zero
  let (b1, c2) ← c1.load ((cpu.reg_zero + 1) % 256)
  let (b2, _) ← c2.load ((cpu.reg_zero + 2) % 256)
  some (b0, b1, b2)

/-- The instruction-execution `match` block of `CPU::process` (everything in
`process` before the final unconditional advance). -/
def CPU.execInst (cpu : CPU) (inst : Instruction) : Option CPU :=
  match inst with
  | .NoOp _ _ _ _ => some cpu
  | .And _ _ _ _ arg1 arg2 => do
      let (data1, c1) ← cpu.load arg1
      let (data2, c2) ← c1.load arg2
      c2.push arg1 (data1 &&& data2)
  | .Or _ _ _ _ arg1 arg2 => do
      let (data1, c1) ← cpu.load arg1
      let (data2, c2) ← c1.load arg2
      c2.push arg1 (data1 ||| data2)
  | .Not _ _ _ _ arg1 => do
      let (data1, c1) ← cpu.load arg1
      c1.push arg1 (data1 ^^^ 255)
  | .Add _ _ sign1 sign2 arg1 arg2 =>
      (match sign1, sign2 with
      | true, true => do
          let (data1, c1) ← cpu.load arg1
          let (data2, c2) ← c1.load arg2
          c2.push arg1 (u8ofInt (i8wrap (toI8 data1 + toI8 data2)))
      | true, false => do
          let (data1, c1) ← cpu.load arg1
          let (data2, c2) ← c1.load arg2
          c2.push arg1 (u8ofInt (i16wrap (toI8 data1 + (data2 : Int))))
      | false, true => do
          let (data1, c1) ← cpu.load arg1
          let (data2, c2) ← c1.load arg2
          c2.push arg1 (u8ofInt (i16wrap ((data1 : Int) + toI8 data2)))
      | false, false => do
          let (data1, c1) ← cpu.load arg1
          let (data2, c2) ← c1.load arg2
          c2.push arg1 ((data1 + data2) % 256))
  | .Sub _ _ sign1 sign2 arg1 arg2 =>
      (match sign1, sign2 with
      | true, true => do
          let (data1, c1) ← cpu.load arg1
          let (data2, c2) ← c1.load arg2
          c2.push arg1 (u8ofInt (i8wrap (toI8 data1 - toI8 data2)))
      | true, false => do
          let (data1, c1) ← cpu.load arg1
          let (data2, c2) ← c1.load arg2
          c2.push arg1 (u8ofInt (i16wrap (toI8 data1 - (data2 : Int))))
      | false, true => do
          let (data1, c1) ← cpu.load arg1
          let (data2, c2) ← c1.load arg2
          c2.push arg1 (u8ofInt (i16wrap ((data1 : Int) - toI8 data2)))
      | false, false => do
          let (data1, c1) ← cpu.load arg1
          let (data2, c2) ← c1.load arg2
          c2.push arg1 (u8ofInt ((data1 : Int) - (data2 : Int))))
  | .Mul _ _ sign1 sign2 arg1 arg2 =>
      (match sign1, sign2 with
      | true, true => do
          let (data1, c1) ← cpu.load arg1
          let (data2, c2) ← c1.load arg2
          c2.push arg1 (u8ofInt (i8wrap (toI8 data1 * toI8 data2)))
      | true, false => do
          let (data1, c1) ← cpu.load arg1
          let (data2, c2) ← c1.load arg2
          c2.push arg1 (u8ofInt (i16wrap (toI8 data1 * (data2 : Int))))
      | false, true => do
          let (data1, c1) ← cpu.load arg1
          let (data2, c2) ← c1.load arg2
          c2.push arg1 (u8ofInt (i16wrap ((data1 : Int) * toI8 data2)))
      | false, false => do
          let (data1, c1) ← cpu.load arg1
          let (data2, c2) ← c1.load arg2
          c2.push arg1 ((data1 * data2) % 256))
  | .Div _ _ sign1 sign2 arg1 arg2 =>
      (match sign1, sign2 with
      | true, true => do
          let (data1, c1) ← cpu.load arg1
          let (data2, c2) ← c1.load arg2
          let q ← i8div (toI8 data1) (toI8 data2)
          c2.push arg1 (u8ofInt q)
      | true, false => do
          let (data1, c1) ← cpu.load arg1
          let (data2, c2) ← c1.load arg2
          let q ← i16div (toI8 data1) ((data2 : Int))
          c2.push arg1 (u8ofInt q)
      | false, true => do
          let (data1, c1) ← cpu.load arg1
          let (data2, c2) ← c1.load arg2
          let q ← i16div ((data1 : Int)) (toI8 data2)
          c2.push arg1 (u8ofInt q)
      | false, false => do
          let (data1, c1) ← cpu.load arg1
          let (data2, c2) ← c1.load arg2
          let q ← u8div data1 data2
          c2.push arg1 q)
  | .SL _ _ _ _ arg1 => do
      let (data1, c1) ← cpu.load arg1
      c1.push arg1 ((data1 <<< 1) % 256)
  | .SR _ _ _ _ arg1 => do
      let (data1, c1) ← cpu.load arg1
      c1.push arg1 (data1 >>> 1)
  | .RL _ _ _ _ arg1 => do
      let (data1, c1) ← cpu.load arg1
      c1.push arg1 (((data1 <<< 1) % 256) ||| (data1 >>> 7))
  | .RR _ _ _ _ arg1 => do
      let (data1, c1) ← cpu.load arg1
      c1.push arg1 ((data1 >>> 1) ||| ((data1 <<< 7) % 256))
  | .Copy _ _ _ _ arg1 arg2 => do
      let (data1, c1) ← cpu.load arg1
      c1.push arg2 data1
  | .CompEq _ _ _ _ arg1 arg2 => do
      let (data1, c1) ← cpu.load arg1
      let (data2, c2) ← c1.load arg2
      if data1 ≠ data2 then some { c2 with reg_zero := (c2.reg_zero + 3) % 256 }
      else some c2
  | .CompGt _ _ _ _ arg1 arg2 => do
      let (data1, c1) ← cpu.load arg1
      let (data2, c2) ← c1.load arg2
      if data1 ≤ data2 then some { c2 with reg_zero := (c2.reg_zero + 3) % 256 }
      else some c2
  | .CompLt _ _ _ _ arg1 arg2 => do
      let (data1, c1) ← cpu.load arg1
      let (data2, c2) ← c1.load arg2
      if data2 ≤ data1 then some { c2 with reg_zero := (c2.reg_zero + 3) % 256 }
      else some c2

/-- The final unconditional advance of `CPU::process`:
`self.reg_zero += 3` (`u8` addition, wrapping in release builds). -/
def CPU.advance (c : CPU) : CPU := { c with reg_zero := (c.reg_zero + 3) % 256 }

/-- The tail of `CPU::process` applied to the outcome of the instruction
`match`: advance `reg_zero` by 3 and return `Halted::Running`. -/
def tickEnd (r : Option CPU) : Option (CPU × Halted) :=
  r.map fun c => (c.advance, Halted.Running)

/-- `CPU::process`: execute the instruction, then advance. -/
def CPU.process (cpu : CPU) (inst : Instruction) : Option (CPU × Halted) :=
  tickEnd (cpu.execInst inst)

/-- `CPU::tick`: fetch, decode, process. -/
def CPU.tick (cpu : CPU) : Option (CPU × Halted) := do
  let inst ← cpu.fetch
  cpu.process inst

/-! Concrete machine states used to evaluate the definitions. -/

/-- A freshly constructed machine with an all-zero image and no devices. -/
def cpu0 : CPU :=
  { reg_zero := 0
    inst_mem := Banker.new 127 (fun _ => 0)
    data_mem := Banker.new 64 (fun _ => 0)
    devices := [] }

/-- A machine whose device table has a device (declared address 194) at
slot 0. -/
def cpuDev : CPU := { cpu0 with devices := [194] }

/-- A machine whose instruction bank holds 5 at offset 0. -/
def cpuB5 : CPU :=
  { cpu0 with inst_mem := Banker.new 127 (fun i => if i = 0 then 5 else 0) }

/-- A machine whose instruction bank holds the byte pattern of -128 at
offset 1 and of -1 at offset 2. -/
def cpuSt : CPU :=
  { cpu0 with inst_mem :=
      Banker.new 127 (fun i => if i = 1 then 128 else if i = 2 then 255 else 0) }

/-- A machine about to fetch at address 254. -/
def cpu254 : CPU := { cpu0 with reg_zero := 254 }

/-- A machine whose instruction bank holds 250 at offset 1 and 10 at
offset 2. -/
def cpuAr : CPU :=
  { cpu0 with inst_mem :=
      Banker.new 127 (fun i => if i = 1 then 250 else if i = 2 then 10 else 0) }

/-! Arithmetic facts about the wrapping helpers. -/

/-- Wrapping into `i8` range does not change the low byte. -/
theorem u8ofInt_i8wrap (x : Int) : u8ofInt (i8wrap x) = u8ofInt x := by
  unfold u8ofInt i8wrap
  omega

/-- Wrapping into `i16` range does not change the low byte. -/
theorem u8ofInt_i16wrap (x : Int) : u8ofInt (i16wrap x) = u8ofInt x := by
  unfold u8ofInt i16wrap
  omega

/-- The low byte of a natural number. -/
theorem u8ofInt_natCast (n : Nat) : u8ofInt (n : Int) = n % 256 := by
  unfold u8ofInt
  omega

/-- Subtracting a multiple of 256 does not change the low byte. -/
theorem u8ofInt_sub_mul256 (x k : Int) : u8ofInt (x - 256 * k) = u8ofInt x := by
  unfold u8ofInt
  omega

/-- `toI8` never goes below -128. -/
theorem toI8_lb (b : Nat) : -128 ≤ toI8 b := by
  unfold toI8
  split_ifs <;> omega

/-- Two's-complement 8-bit wrapping addition has the same byte pattern as
unsigned 8-bit wrapping addition. -/
theorem i8_add_pattern (d1 d2 : Nat) :
    u8ofInt (i8wrap (toI8 d1 + toI8 d2)) = (d1 + d2) % 256 := by
  rw [u8ofInt_i8wrap]
  unfold toI8 u8ofInt
  split_ifs <;> omega

/-- Two's-complement 8-bit wrapping subtraction has the same byte pattern as
unsigned 8-bit wrapping subtraction. -/
theorem i8_sub_pattern (d1 d2 : Nat) :
    u8ofInt (i8wrap (toI8 d1 - toI8 d2)) = u8ofInt ((d1 : Int) - (d2 : Int)) := by
  rw [u8ofInt_i8wrap]
  unfold toI8 u8ofInt
  split_ifs <;> omega

/-- Two's-complement 8-bit wrapping multiplication has the same byte pattern
as unsigned 8-bit wrapping multiplication. -/
theorem i8_mul_pattern (d1 d2 : Nat) :
    u8ofInt (i8wrap (toI8 d1 * toI8 d2)) = (d1 * d2) % 256 := by
  rw [u8ofInt_i8wrap]
  unfold toI8
  split_ifs
  · rw [← Nat.cast_mul, u8ofInt_natCast]
  · have e : (d1 : Int) * ((d2 : Int) - 256) = (d1 : Int) * (d2 : Int) - 256 * (d1 : Int) := by
      ring
    rw [e, u8ofInt_sub_mul256, ← Nat.cast_mul, u8ofInt_natCast]
  · have e : ((d1 : Int) - 256) * (d2 : Int) = (d1 : Int) * (d2 : Int) - 256 * (d2 : Int) := by
      ring
    rw [e, u8ofInt_sub_mul256, ← Nat.cast_mul, u8ofInt_natCast]
  · have e : ((d1 : Int) - 256) * ((d2 : Int) - 256)
        = (d1 : Int) * (d2 : Int) - 256 * ((d1 : Int) + (d2 : Int) - 256) := by
      ring
    rw [e, u8ofInt_sub_mul256, ← Nat.cast_mul, u8ofInt_natCast]

/-! Claim theorems. -/

/-- C1: contrary to the claim, the Router is not total over `0..=255`: for
every address at or above 194, both `load` and `push` abort with
`Invalid address`, whether or not a device is registered at slot
`addr - 194` — the wildcard arm of both Router matches is a `panic!` and the
device table is never consulted. -/
theorem load_push_device_space_fault (cpu : CPU) (addr d : Nat) (h : 194 ≤ addr) :
    cpu.load addr = none ∧ cpu.push addr d = none := by
  constructor
  · unfold CPU.load
    split_ifs <;> first | omega | rfl
  · unfold CPU.push
    split_ifs <;> first | omega | rfl

/-- Witness for C1 at the failing input: address 194, on a machine whose
device table has a device registered at slot 0. -/
theorem load_push_device_space_fault_witness :
    194 ≤ 194 ∧ (cpuDev.load 194 = none ∧ cpuDev.push 194 7 = none) :=
  ⟨by decide, load_push_device_space_fault cpuDev 194 7 (by decide)⟩

/-- C2: contrary to the claim, constructing a CPU with any device at all
aborts: `CPU::new` index-assigns into `Vec::with_capacity(62)`, whose length
is 0, so already the first device — even one with a valid, duplicate-free
address — hits an out-of-bounds index-assignment. -/
theorem new_any_device_faults (img : Nat → Nat) (a : Nat) (devs : List Nat) :
    CPU.new img (a :: devs) = none := by
  unfold CPU.new mapDevices
  simp [List.foldlM, vecSet]

/-- C6 counterexample: a tick executed with `reg_zero = 254` does not leave
`reg_zero = 1`; it aborts during fetch (instruction-bank offset 254 is
outside the 127-byte bank) before the advance is ever reached. -/
theorem tick_at_254_faults_cex : cpu254.tick = none := rfl

/-- C6 (amended): whenever the instruction phase of a tick completes, the
final unconditional advance adds exactly 3 to `reg_zero`, reduced modulo 256;
a tick whose fetch or instruction phase aborts (such as one at
`reg_zero = 254`) never reaches the advance. -/
theorem advance_adds_three_mod256 (cpu c1 : CPU) (inst : Instruction)
    (h : cpu.execInst inst = some c1) :
    cpu.process inst =
      some ({ c1 with reg_zero := (c1.reg_zero + 3) % 256 }, Halted.Running) := by
  unfold CPU.process tickEnd CPU.advance
  rw [h]
  rfl

/-- Witness for the amended C6: a `NoOp` on the fresh machine advances
`reg_zero` from 0 to 3. -/
theorem advance_adds_three_mod256_witness :
    cpu0.execInst (Instruction.NoOp false false false false) = some cpu0 ∧
      cpu0.process (Instruction.NoOp false false false false) =
        some ({ cpu0 with reg_zero := (cpu0.reg_zero + 3) % 256 }, Halted.Running) :=
  ⟨rfl, advance_adds_three_mod256 cpu0 cpu0 (Instruction.NoOp false false false false) rfl⟩

/-- C9 counterexample: at address 127 the claimed round trip does not exist —
both `push` and `load` abort, because the partition sends address 127 to
offset 127 of the 127-byte instruction bank, one past its last byte. -/
theorem roundtrip_at_127_cex : cpu0.push 127 5 = none ∧ cpu0.load 127 = none :=
  ⟨rfl, rfl⟩

/-- C9 (amended): for every address in `1..=126` (instruction bank) or
`128..=191` (data bank) and every byte `v`, `push` succeeds, and an immediate
`load` at the same address returns exactly the pushed byte. -/
theorem push_load_roundtrip (cpu : CPU) (a v : Nat)
    (hr : (1 ≤ a ∧ a ≤ 126) ∨ (128 ≤ a ∧ a ≤ 191)) :
    (cpu.push a v).isSome = true ∧
      (cpu.push a v).bind (fun c' => c'.load a) =
        (cpu.push a v).map (fun c' => (v, c')) := by
  rcases hr with ⟨ha1, ha2⟩ | ⟨ha1, ha2⟩
  · have hw : cpu.push a v =
        some { cpu with inst_mem :=
          { content := fun p j =>
              if p = cpu.inst_mem.pointer ∧ j = a then v else cpu.inst_mem.content p j,
            pointer := cpu.inst_mem.pointer } } := by
      unfold CPU.push Banker.write
      rw [if_neg (by omega : ¬ a = 0), if_pos (by omega : a ≤ 127),
        if_pos (by omega : a < 127)]
      rfl
    rw [hw]
    refine ⟨rfl, ?_⟩
    show CPU.load _ a = some (v, _)
    unfold CPU.load Banker.read
    rw [if_neg (by omega : ¬ a = 0), if_pos (by omega : a ≤ 127),
      if_pos (by omega : a < 127)]
    simp
  · have hw : cpu.push a v =
        some { cpu with data_mem :=
          { content := fun p j =>
              if p = cpu.data_mem.pointer ∧ j = a - 128 then v else cpu.data_mem.content p j,
            pointer := cpu.data_mem.pointer } } := by
      unfold CPU.push Banker.write
      rw [if_neg (by omega : ¬ a = 0), if_neg (by omega : ¬ a ≤ 127),
        if_pos (by omega : a ≤ 191), if_pos (by omega : a - 128 < 64)]
      rfl
    rw [hw]
    refine ⟨rfl, ?_⟩
    show CPU.load _ a = some (v, _)
    unfold CPU.load Banker.read
    rw [if_neg (by omega : ¬ a = 0), if_neg (by omega : ¬ a ≤ 127),
      if_pos (by omega : a ≤ 191), if_pos (by omega : a - 128 < 64)]
    simp

/-- Witness for the amended C9: pushing 9 at address 5 round-trips. -/
theorem push_load_roundtrip_witness :
    ((1 ≤ 5 ∧ 5 ≤ 126) ∨ (128 ≤ 5 ∧ 5 ≤ 191)) ∧
      ((cpu0.push 5 9).isSome = true ∧
        (cpu0.push 5 9).bind (fun c' => c'.load 5) =
          (cpu0.push 5 9).map (fun c' => (9, c'))) :=
  ⟨by decide, push_load_roundtrip cpu0 5 9 (by decide)⟩

/-- C10 counterexample: `load` is not total over `0..=193` — at address 127
it aborts (offset 127 is outside the 127-byte instruction bank). -/
theorem load_127_faults_cex : cpu0.load 127 = none := rfl

/-- C10 (amended): outside device space the Router's `load` is total except
at address 127, and it returns the entire machine state unchanged even though
the source takes the CPU by mutable reference. -/
theorem load_total_and_pure (cpu : CPU) (addr : Nat)
    (h1 : addr ≤ 193) (h2 : addr ≠ 127) :
    (cpu.load addr).map Prod.snd = some cpu := by
  unfold CPU.load Banker.read
  split_ifs <;> first | rfl | omega

/-- Witness for the amended C10: a load at address 5 returns the state
unchanged. -/
theorem load_total_and_pure_witness :
    (5 ≤ 193 ∧ 5 ≠ 127) ∧ (cpu0.load 5).map Prod.snd = some cpu0 :=
  ⟨by decide, load_total_and_pure cpu0 5 (by decide) (by decide)⟩

/-- C3 counterexample: with `reg_zero = 0` and instruction-bank byte 0 equal
to 5, the source fetch reads 5 (directly from the bank) while a Router-based
fetch would read 0 — `load 0` returns `reg_zero` itself — so fetch does not
resolve its addresses through the unified address-space partition. -/
theorem fetch_not_via_router_cex :
    cpuB5.fetchBytes = some (5, 0, 0) ∧ cpuB5.fetchBytesRouter = some (0, 0, 0) ∧
      cpuB5.fetchBytes ≠ cpuB5.fetchBytesRouter := by
  decide

/-- C3 (amended): fetch reads its 3 bytes directly from the active
instruction bank at offsets `reg_zero`, `reg_zero + 1`, `reg_zero + 2`, not
through the Router: whenever `reg_zero = 0` and the active bank's byte 0 is
nonzero, the fetched bytes are the bank's bytes 0, 1, 2, and they differ from
a Router-resolved fetch (which would return `reg_zero` itself at address 0). -/
theorem fetch_reads_inst_bank_directly (cpu : CPU)
    (hz : cpu.reg_zero = 0) (hb : cpu.inst_mem.content cpu.inst_mem.pointer 0 ≠ 0) :
    cpu.fetchBytes = some (cpu.inst_mem.content cpu.inst_mem.pointer 0,
        cpu.inst_mem.content cpu.inst_mem.pointer 1,
        cpu.inst_mem.content cpu.inst_mem.pointer 2) ∧
      cpu.fetchBytes ≠ cpu.fetchBytesRouter := by
  have hDirect : cpu.fetchBytes = some (cpu.inst_mem.content cpu.inst_mem.pointer 0,
      cpu.inst_mem.content cpu.inst_mem.pointer 1,
      cpu.inst_mem.content cpu.inst_mem.pointer 2) := by
    simp [CPU.fetchBytes, Banker.read, hz]
  have hRouter : cpu.fetchBytesRouter = some (0,
      cpu.inst_mem.content cpu.inst_mem.pointer 1,
      cpu.inst_mem.content cpu.inst_mem.pointer 2) := by
    simp [CPU.fetchBytesRouter, CPU.load, Banker.read, hz]
  refine ⟨hDirect, ?_⟩
  rw [hDirect, hRouter]
  intro he
  exact hb (congrArg (fun o => (o.getD (0, 0, 0)).1) he)

/-- Witness for the amended C3 on the concrete machine `cpuB5`. -/
theorem fetch_reads_inst_bank_directly_witness :
    (cpuB5.reg_zero = 0 ∧ cpuB5.inst_mem.content cpuB5.inst_mem.pointer 0 ≠ 0) ∧
      (cpuB5.fetchBytes = some (cpuB5.inst_mem.content cpuB5.inst_mem.pointer 0,
          cpuB5.inst_mem.content cpuB5.inst_mem.pointer 1,
          cpuB5.inst_mem.content cpuB5.inst_mem.pointer 2) ∧
        cpuB5.fetchBytes ≠ cpuB5.fetchBytesRouter) :=
  ⟨⟨rfl, by decide⟩, fetch_reads_inst_bank_directly cpuB5 rfl (by decide)⟩

/-- Auxiliary: two skips of 3 reduce to one skip of 6 modulo 256. -/
theorem mod256_add3_add3 (n : Nat) : ((n + 3) % 256 + 3) % 256 = (n + 6) % 256 := by
  omega

/-- C5: with loaded operand bytes `d1` and `d2` (unsigned comparison),
`CompEq` advances `reg_zero` by 6 in total (skip) exactly when `d1 ≠ d2` and
by 3 otherwise; `CompGt` skips exactly when `d1 ≤ d2`; `CompLt` skips exactly
when `d1 ≥ d2`; and no comparison writes any result back — the entire state
except `reg_zero` is unchanged. -/
theorem comparisons_skip_semantics (cpu : CPU) (h d s1 s2 : Bool) (a1 a2 d1 d2 : Nat)
    (h1 : cpu.load a1 = some (d1, cpu)) (h2 : cpu.load a2 = some (d2, cpu)) :
    cpu.process (.CompEq h d s1 s2 a1 a2) =
        some ({ cpu with reg_zero := (cpu.reg_zero + (if d1 = d2 then 3 else 6)) % 256 },
          Halted.Running) ∧
      cpu.process (.CompGt h d s1 s2 a1 a2) =
        some ({ cpu with reg_zero := (cpu.reg_zero + (if d1 ≤ d2 then 6 else 3)) % 256 },
          Halted.Running) ∧
      cpu.process (.CompLt h d s1 s2 a1 a2) =
        some ({ cpu with reg_zero := (cpu.reg_zero + (if d2 ≤ d1 then 6 else 3)) % 256 },
          Halted.Running) := by
  refine ⟨?_, ?_, ?_⟩
  · simp only [CPU.process, tickEnd, CPU.execInst, h1, Option.some_bind]
    by_cases hc : d1 = d2
    · simp [h2, hc, CPU.advance]
    · simp [h2, hc, CPU.advance, mod256_add3_add3]
  · simp only [CPU.process, tickEnd, CPU.execInst, h1, Option.some_bind]
    by_cases hc : d1 ≤ d2
    · simp [h2, hc, CPU.advance, mod256_add3_add3]
    · simp [h2, hc, CPU.advance, Nat.le_of_lt]
  · simp only [CPU.process, tickEnd, CPU.execInst, h1, Option.some_bind]
    by_cases hc : d2 ≤ d1
    · simp [h2, hc, CPU.advance, mod256_add3_add3]
    · simp [h2, hc, CPU.advance, Nat.le_of_lt]

/-- Witness for C5 on the concrete machine `cpuSt` (operands 128 and 255). -/
theorem comparisons_skip_semantics_witness :
    (cpuSt.load 1 = some (128, cpuSt) ∧ cpuSt.load 2 = some (255, cpuSt)) ∧
      (cpuSt.process (.CompEq false false false false 1 2) =
          some ({ cpuSt with
            reg_zero := (cpuSt.reg_zero + (if 128 = 255 then 3 else 6)) % 256 },
            Halted.Running) ∧
        cpuSt.process (.CompGt false false false false 1 2) =
          some ({ cpuSt with
            reg_zero := (cpuSt.reg_zero + (if 128 ≤ 255 then 6 else 3)) % 256 },
            Halted.Running) ∧
        cpuSt.process (.CompLt false false false false 1 2) =
          some ({ cpuSt with
            reg_zero := (cpuSt.reg_zero + (if 255 ≤ 128 then 6 else 3)) % 256 },
            Halted.Running)) :=
  ⟨⟨rfl, rfl⟩,
    comparisons_skip_semantics cpuSt false false false false 1 2 128 255 rfl rfl⟩

/-- C7: for every sign-flag combination, a `Div` whose second operand loads
as zero aborts — the process step produces no successor state at all, so in
particular no result byte is stored at `arg1`'s address. -/
theorem div_by_zero_faults (cpu : CPU) (h d s1 s2 : Bool) (a1 a2 d1 : Nat)
    (h1 : cpu.load a1 = some (d1, cpu)) (h2 : cpu.load a2 = some (0, cpu)) :
    cpu.process (.Div h d s1 s2 a1 a2) = none := by
  cases s1 <;> cases s2 <;>
    simp [CPU.process, tickEnd, CPU.execInst, h1, h2, i8div, i16div, u8div, toI8]

/-- Witness for C7: dividing by the zero byte at data address 128. -/
theorem div_by_zero_faults_witness :
    (cpu0.load 1 = some (0, cpu0) ∧ cpu0.load 128 = some (0, cpu0)) ∧
      cpu0.process (.Div false false true true 1 128) = none :=
  ⟨⟨rfl, rfl⟩, div_by_zero_faults cpu0 false false true true 1 128 0 rfl rfl⟩

/-- C8: `Copy` loads `arg1`'s value and stores it at `arg2`'s address (the
destination is the second operand); when the destination address is 0 the
store sets `reg_zero` to the loaded value and the tick's own +3 advance then
applies on top, so the next fetch address is the loaded value plus 3
(mod 256). -/
theorem copy_semantics (cpu c2 : CPU) (h d s1 s2 : Bool) (a1 a2 v : Nat)
    (h1 : cpu.load a1 = some (v, cpu)) (h2 : cpu.push a2 v = some c2) :
    cpu.process (.Copy h d s1 s2 a1 a2) = some (c2.advance, Halted.Running) ∧
      (a2 = 0 → c2.advance.reg_zero = (v + 3) % 256) := by
  constructor
  · simp [CPU.process, tickEnd, CPU.execInst, h1, h2]
  · intro ha2
    subst ha2
    unfold CPU.push at h2
    rw [if_pos rfl] at h2
    have h3 := Option.some.inj h2
    subst h3
    rfl

/-- Witness for C8: copying the byte 128 from address 1 to address 0 makes
the next fetch address 131. -/
theorem copy_semantics_witness :
    (cpuSt.load 1 = some (128, cpuSt) ∧
        cpuSt.push 0 128 = some { cpuSt with reg_zero := 128 }) ∧
      (cpuSt.process (.Copy false false false false 1 0) =
          some (CPU.advance { cpuSt with reg_zero := 128 }, Halted.Running) ∧
        (0 = 0 → (CPU.advance { cpuSt with reg_zero := 128 }).reg_zero = (128 + 3) % 256)) :=
  ⟨⟨rfl, rfl⟩,
    copy_semantics cpuSt { cpuSt with reg_zero := 128 } false false false false 1 0 128
      rfl rfl⟩


/-- C4 counterexample: with both sign flags set and loaded operand byte
patterns 128 (two's-complement -128) and 255 (-1), the claimed
"8-bit wrapping arithmetic with no overflow check" would store a result at
`arg1`'s address, but the source's signed division panics with a division
overflow: the process step aborts and stores nothing. -/
theorem div_signed_overflow_cex :
    cpuSt.load 1 = some (128, cpuSt) ∧ cpuSt.load 2 = some (255, cpuSt) ∧
      cpuSt.process (.Div false false true true 1 2) = none :=
  ⟨rfl, rfl, rfl⟩

/-- C4 (amended): the sign-flag matrix of the four arithmetic opcodes, with
operand bytes `d1`, `d2` loaded through the Router.  Both flags set: the
bytes are reinterpreted as two's-complement `i8` and the operation wraps in
8 bits with no overflow check for `Add`, `Sub`, `Mul` (so the stored byte
patterns equal the unsigned wrapping results), while `Div` is the signed
8-bit quotient and faults on a zero divisor and on the overflowing
`-128 / -1` (byte patterns 128 and 255) — division overflow IS checked.
Exactly one flag set: both operands widen to a signed 16-bit intermediate,
the operation is computed there and the result truncates to 8 bits (`Div`
faulting on a zero divisor).  Both flags clear: unsigned 8-bit wrapping
arithmetic (`Div` faulting on a zero divisor).  The result is stored at
`arg1`'s address. -/
theorem arith_sign_matrix (cpu : CPU) (h d : Bool) (a1 a2 d1 d2 : Nat)
    (h1 : cpu.load a1 = some (d1, cpu)) (h2 : cpu.load a2 = some (d2, cpu))
    (hd1 : d1 < 256) (hd2 : d2 < 256) :
    (cpu.process (.Add h d true true a1 a2) = tickEnd (cpu.push a1 ((d1 + d2) % 256)) ∧
      cpu.process (.Add h d true false a1 a2) =
        tickEnd (cpu.push a1 (u8ofInt (toI8 d1 + (d2 : Int)))) ∧
      cpu.process (.Add h d false true a1 a2) =
        tickEnd (cpu.push a1 (u8ofInt ((d1 : Int) + toI8 d2))) ∧
      cpu.process (.Add h d false false a1 a2) = tickEnd (cpu.push a1 ((d1 + d2) % 256))) ∧
    (cpu.process (.Sub h d true true a1 a2) =
        tickEnd (cpu.push a1 (u8ofInt ((d1 : Int) - (d2 : Int)))) ∧
      cpu.process (.Sub h d true false a1 a2) =
        tickEnd (cpu.push a1 (u8ofInt (toI8 d1 - (d2 : Int)))) ∧
      cpu.process (.Sub h d false true a1 a2) =
        tickEnd (cpu.push a1 (u8ofInt ((d1 : Int) - toI8 d2))) ∧
      cpu.process (.Sub h d false false a1 a2) =
        tickEnd (cpu.push a1 (u8ofInt ((d1 : Int) - (d2 : Int))))) ∧
    (cpu.process (.Mul h d true true a1 a2) = tickEnd (cpu.push a1 ((d1 * d2) % 256)) ∧
      cpu.process (.Mul h d true false a1 a2) =
        tickEnd (cpu.push a1 (u8ofInt (toI8 d1 * (d2 : Int)))) ∧
      cpu.process (.Mul h d false true a1 a2) =
        tickEnd (cpu.push a1 (u8ofInt ((d1 : Int) * toI8 d2))) ∧
      cpu.process (.Mul h d false false a1 a2) = tickEnd (cpu.push a1 ((d1 * d2) % 256))) ∧
    (d2 ≠ 0 →
      (¬(d1 = 128 ∧ d2 = 255) →
        cpu.process (.Div h d true true a1 a2) =
          tickEnd (cpu.push a1 (u8ofInt (Int.tdiv (toI8 d1) (toI8 d2))))) ∧
      cpu.process (.Div h d true false a1 a2) =
        tickEnd (cpu.push a1 (u8ofInt (Int.tdiv (toI8 d1) ((d2 : Int))))) ∧
      cpu.process (.Div h d false true a1 a2) =
        tickEnd (cpu.push a1 (u8ofInt (Int.tdiv ((d1 : Int)) (toI8 d2)))) ∧
      cpu.process (.Div h d false false a1 a2) = tickEnd (cpu.push a1 (d1 / d2))) := by
  have hne2 : ∀ hz : d2 ≠ 0, toI8 d2 ≠ 0 := by
    intro hz
    unfold toI8
    split_ifs <;> omega
  refine ⟨⟨?_, ?_, ?_, ?_⟩, ⟨?_, ?_, ?_, ?_⟩, ⟨?_, ?_, ?_, ?_⟩, ?_⟩
  · simp only [CPU.process, CPU.execInst, h1, Option.some_bind]
    simp [h2, i8_add_pattern]
  · simp only [CPU.process, CPU.execInst, h1, Option.some_bind]
    simp [h2, u8ofInt_i16wrap]
  · simp only [CPU.process, CPU.execInst, h1, Option.some_bind]
    simp [h2, u8ofInt_i16wrap]
  · simp only [CPU.process, CPU.execInst, h1, Option.some_bind]
    simp [h2]
  · simp only [CPU.process, CPU.execInst, h1, Option.some_bind]
    simp [h2, i8_sub_pattern]
  · simp only [CPU.process, CPU.execInst, h1, Option.some_bind]
    simp [h2, u8ofInt_i16wrap]
  · simp only [CPU.process, CPU.execInst, h1, Option.some_bind]
    simp [h2, u8ofInt_i16wrap]
  · simp only [CPU.process, CPU.execInst, h1, Option.some_bind]
    simp [h2]
  · simp only [CPU.process, CPU.execInst, h1, Option.some_bind]
    simp [h2, i8_mul_pattern]
  · simp only [CPU.process, CPU.execInst, h1, Option.some_bind]
    simp [h2, u8ofInt_i16wrap]
  · simp only [CPU.process, CPU.execInst, h1, Option.some_bind]
    simp [h2, u8ofInt_i16wrap]
  · simp only [CPU.process, CPU.execInst, h1, Option.some_bind]
    simp [h2]
  · intro hz
    refine ⟨?_, ?_, ?_, ?_⟩
    · intro ho
      have g1 : toI8 d2 ≠ 0 := hne2 hz
      have g2 : ¬(toI8 d1 = -128 ∧ toI8 d2 = -1) := by
        rintro ⟨ha, hb⟩
        apply ho
        unfold toI8 at ha hb
        split_ifs at ha hb
        all_goals omega
      simp only [CPU.process, CPU.execInst, h1, Option.some_bind]
      simp [h2, i8div, g1, g2]
    · have g2 : ¬(toI8 d1 = -32768 ∧ (d2 : Int) = -1) := by
        rintro ⟨ha, _⟩
        have := toI8_lb d1
        omega
      simp only [CPU.process, CPU.execInst, h1, Option.some_bind]
      simp [h2, i16div, hz, g2]
    · have g1 : toI8 d2 ≠ 0 := hne2 hz
      have g2 : ¬((d1 : Int) = -32768 ∧ toI8 d2 = -1) := by
        rintro ⟨ha, _⟩
        omega
      simp only [CPU.process, CPU.execInst, h1, Option.some_bind]
      simp [h2, i16div, g1, g2]
    · simp only [CPU.process, CPU.execInst, h1, Option.some_bind]
      simp [h2, u8div, hz]


/-- Witness for the amended C4 with loaded operands 250 and 10; in
particular the unsigned addition conjunct instantiates to the spec's
example `Add(250, 10) = (250 + 10) % 256 = 4`. -/
theorem arith_sign_matrix_witness :
    (cpuAr.load 1 = some (250, cpuAr) ∧ cpuAr.load 2 = some (10, cpuAr) ∧
        250 < 256 ∧ 10 < 256) ∧
      ((cpuAr.process (.Add false false true true 1 2) =
            tickEnd (cpuAr.push 1 ((250 + 10) % 256)) ∧
          cpuAr.process (.Add false false true false 1 2) =
            tickEnd (cpuAr.push 1 (u8ofInt (toI8 250 + (10 : Int)))) ∧
          cpuAr.process (.Add false false false true 1 2) =
            tickEnd (cpuAr.push 1 (u8ofInt ((250 : Int) + toI8 10))) ∧
          cpuAr.process (.Add false false false false 1 2) =
            tickEnd (cpuAr.push 1 ((250 + 10) % 256))) ∧
        (cpuAr.process (.Sub false false true true 1 2) =
            tickEnd (cpuAr.push 1 (u8ofInt ((250 : Int) - (10 : Int)))) ∧
          cpuAr.process (.Sub false false true false 1 2) =
            tickEnd (cpuAr.push 1 (u8ofInt (toI8 250 - (10 : Int)))) ∧
          cpuAr.process (.Sub false false false true 1 2) =
            tickEnd (cpuAr.push 1 (u8ofInt ((250 : Int) - toI8 10))) ∧
          cpuAr.process (.Sub false false false false 1 2) =
            tickEnd (cpuAr.push 1 (u8ofInt ((250 : Int) - (10 : Int))))) ∧
        (cpuAr.process (.Mul false false true true 1 2) =
            tickEnd (cpuAr.push 1 ((250 * 10) % 256)) ∧
          cpuAr.process (.Mul false false true false 1 2) =
            tickEnd (cpuAr.push 1 (u8ofInt (toI8 250 * (10 : Int)))) ∧
          cpuAr.process (.Mul false false false true 1 2) =
            tickEnd (cpuAr.push 1 (u8ofInt ((250 : Int) * toI8 10))) ∧
          cpuAr.process (.Mul false false false false 1 2) =
            tickEnd (cpuAr.push 1 ((250 * 10) % 256))) ∧
        ((10 : Nat) ≠ 0 →
          (¬((250 : Nat) = 128 ∧ (10 : Nat) = 255) →
            cpuAr.process (.Div false false true true 1 2) =
              tickEnd (cpuAr.push 1 (u8ofInt (Int.tdiv (toI8 250) (toI8 10))))) ∧
          cpuAr.process (.Div false false true false 1 2) =
            tickEnd (cpuAr.push 1 (u8ofInt (Int.tdiv (toI8 250) ((10 : Int))))) ∧
          cpuAr.process (.Div false false false true 1 2) =
            tickEnd (cpuAr.push 1 (u8ofInt (Int.tdiv ((250 : Int)) (toI8 10)))) ∧
          cpuAr.process (.Div false false false false 1 2) =
            tickEnd (cpuAr.push 1 (250 / 10)))) :=
  ⟨⟨rfl, rfl, by decide, by decide⟩,
    arith_sign_matrix cpuAr false false 1 2 250 10 rfl rfl (by decide) (by decide)⟩

end YCPU
